import Mathlib

/-!
Verification of the strategy payoff model and portfolio simulation engine of
the bot-trader repository.

The Python source is shallowly embedded:

* floats become `ℚ` (the code only does field arithmetic and comparisons on
  prices and premiums, never relies on rounding);
* dates become `ℤ` day numbers; `date.today()` is a fixed day `today` carried
  by the engine, constant for the duration of one process run, and
  `(d2 - d1).days` becomes integer subtraction;
* the `float('inf')` sentinel used for unbounded max profit becomes
  `Option ℚ` with `none` playing the role of `+∞`;
* Python `int(x)` (truncation toward zero) is `pyInt`;
* the global pseudo-random source is an explicit stream `rand : ℕ → ℚ` of
  daily returns plus a cursor `rand_index` in the engine state;
* functions that can raise are `Option`-valued (`should_enter_trade` raises
  `IndexError` on an empty strategy list; `run_simulation` raises
  `ZeroDivisionError` when `initial_capital = 0`).

Every definition is translated from the corresponding source symbol, named
after it where Lean allows.
-/

namespace BotTrader

/-- Python `int(x)`: truncation toward zero, from the cast in
`TradingEngine.calculate_position_size`. -/
def pyInt (q : ℚ) : ℤ := if 0 ≤ q then ⌊q⌋ else -⌊-q⌋

/-- Zero-padded decimal rendering, Python format spec `{:04d}` used for
position and trade identifiers. -/
def pad4 (n : ℕ) : String :=
  let s := toString n
  if s.length < 4 then String.mk (List.replicate (4 - s.length) '0') ++ s else s

/-! ## Strategy model (options_models.py) -/

/-- Fields of the abstract `OptionsStrategy` base class: symbol, reference
price, expiration date and entry (construction) date. -/
structure StrategyBase where
  symbol : String
  current_price : ℚ
  expiration : ℤ
  entry_date : ℤ
  deriving DecidableEq

/-- The per-variant legs: strikes and premiums, in the order of each
variant's `__init__` parameters. -/
inductive StrategyData where
  | ironCondor (short_call_strike long_call_strike short_put_strike
      long_put_strike net_credit : ℚ)
  | straddle (strike call_premium put_premium : ℚ)
  | strangle (call_strike put_strike call_premium put_premium : ℚ)
  | callSpread (buy_strike sell_strike buy_premium sell_premium : ℚ)
  | putSpread (buy_strike sell_strike buy_premium sell_premium : ℚ)
  | butterfly (low_strike middle_strike high_strike
      low_premium middle_premium high_premium : ℚ)
  deriving DecidableEq

/-- A strategy instance: base-class state plus variant legs. -/
structure Strategy where
  base : StrategyBase
  data : StrategyData
  deriving DecidableEq

/-- `OptionsStrategy.days_to_expiration`: `(expiration - date.today()).days`. -/
def days_to_expiration (s : Strategy) (today : ℤ) : ℤ :=
  s.base.expiration - today

/-- `OptionsStrategy.is_expired`: `days_to_expiration <= 0`. -/
def is_expired (s : Strategy) (today : ℤ) : Bool :=
  decide (days_to_expiration s today ≤ 0)

/-- `calculate_payoff` of each variant.  Derived attributes are inlined:
`total_cost = call_premium + put_premium` for Straddle and Strangle,
`net_debit = buy_premium - sell_premium` for the spreads and
`net_debit = low_premium - 2*middle_premium + high_premium` for Butterfly. -/
def calculate_payoff (s : Strategy) (stock_price : ℚ) : ℚ :=
  match s.data with
  | .ironCondor scs lcs sps lps credit =>
      (credit : ℚ) -
        ((if scs < stock_price then min (stock_price - scs) (lcs - scs) else 0) +
         (if stock_price < sps then min (sps - stock_price) (sps - lps) else 0))
  | .straddle k cp pp =>
      (max 0 (stock_price - k) - cp) + (max 0 (k - stock_price) - pp)
  | .strangle cs ps cp pp =>
      (max 0 (stock_price - cs) - cp) + (max 0 (ps - stock_price) - pp)
  | .callSpread bs ss bp sp =>
      if stock_price ≤ bs then -(bp - sp)
      else if stock_price ≤ ss then (stock_price - bs) - (bp - sp)
      else (ss - bs) - (bp - sp)
  | .putSpread bs ss bp sp =>
      if bs ≤ stock_price then -(bp - sp)
      else if ss ≤ stock_price then (bs - stock_price) - (bp - sp)
      else (bs - ss) - (bp - sp)
  | .butterfly ls ms hs lpr mpr hpr =>
      if stock_price ≤ ls then -(lpr - 2*mpr + hpr)
      else if stock_price ≤ ms then (stock_price - ls) - (lpr - 2*mpr + hpr)
      else if stock_price ≤ hs then
        (ms - ls) - (stock_price - ms) - (lpr - 2*mpr + hpr)
      else -(lpr - 2*mpr + hpr)

/-- `get_max_profit` of each variant; `none` is the `float('inf')` sentinel
returned by Straddle and Strangle. -/
def get_max_profit (s : Strategy) : Option ℚ :=
  match s.data with
  | .ironCondor _ _ _ _ credit => some credit
  | .straddle _ _ _ => none
  | .strangle _ _ _ _ => none
  | .callSpread bs ss bp sp => some ((ss - bs) - (bp - sp))
  | .putSpread bs ss bp sp => some ((bs - ss) - (bp - sp))
  | .butterfly ls ms _ lpr mpr hpr => some ((ms - ls) - (lpr - 2*mpr + hpr))

/-- `get_max_loss` of each variant. -/
def get_max_loss (s : Strategy) : ℚ :=
  match s.data with
  | .ironCondor scs lcs sps lps credit => max (lcs - scs) (sps - lps) - credit
  | .straddle _ cp pp => cp + pp
  | .strangle _ _ cp pp => cp + pp
  | .callSpread _ _ bp sp => bp - sp
  | .putSpread _ _ bp sp => bp - sp
  | .butterfly _ _ _ lpr mpr hpr => lpr - 2*mpr + hpr

/-- `get_break_even_points` of each variant, lower point first as in the
source return lists. -/
def get_break_even_points (s : Strategy) : List ℚ :=
  match s.data with
  | .ironCondor scs _ sps _ credit => [sps - credit, scs + credit]
  | .straddle k cp pp => [k - (cp + pp), k + (cp + pp)]
  | .strangle cs ps cp pp => [ps - (cp + pp), cs + (cp + pp)]
  | .callSpread bs _ bp sp => [bs + (bp - sp)]
  | .putSpread bs _ bp sp => [bs - (bp - sp)]
  | .butterfly ls _ hs lpr mpr hpr =>
      [ls + (lpr - 2*mpr + hpr), hs - (lpr - 2*mpr + hpr)]

/-- `__class__.__name__` of each variant. -/
def typeName (s : Strategy) : String :=
  match s.data with
  | .ironCondor .. => "IronCondor"
  | .straddle .. => "Straddle"
  | .strangle .. => "Strangle"
  | .callSpread .. => "CallSpread"
  | .putSpread .. => "PutSpread"
  | .butterfly .. => "Butterfly"

/-- `hasattr(strategy, "net_credit")`: only `IronCondor.__init__` sets that
attribute. -/
def hasNetCredit (s : Strategy) : Bool :=
  match s.data with
  | .ironCondor .. => true
  | _ => false

/-- `hasattr(strategy, "total_cost")`: only `Straddle.__init__` and
`Strangle.__init__` set that attribute. -/
def hasTotalCost (s : Strategy) : Bool :=
  match s.data with
  | .straddle .. => true
  | .strangle .. => true
  | _ => false

/-- Discriminant used to model `isinstance(strategy, type(strategies[0]))`:
with the six final strategy classes this is class equality. -/
def classTag : StrategyData → ℕ
  | .ironCondor .. => 0
  | .straddle .. => 1
  | .strangle .. => 2
  | .callSpread .. => 3
  | .putSpread .. => 4
  | .butterfly .. => 5

/-- `isinstance(s, type(t))` for two instances of the final variant
classes. -/
def sameClass (s t : Strategy) : Bool :=
  classTag s.data == classTag t.data

/-- Construction invariants of the strategy entities, from the data-model
section of the specification and the shape each variant's docstring and
glossary entry describe: non-negative premiums, legs ordered as the variant
names them (`long put ≤ short put ≤ short call ≤ long call`;
`put strike ≤ call strike`; `buy ≤ sell` for a call spread and `sell ≤ buy`
for a put spread; `low ≤ middle ≤ high` with equal wings for a butterfly), a
non-negative net credit no larger than either wing width, and a net debit
between `0` and the spread width so that the stated max loss is never
negative by construction. -/
def WellFormed (s : Strategy) : Prop :=
  match s.data with
  | .ironCondor scs lcs sps lps credit =>
      lps ≤ sps ∧ sps ≤ scs ∧ scs ≤ lcs ∧ 0 ≤ credit ∧
        credit ≤ lcs - scs ∧ credit ≤ sps - lps
  | .straddle _ cp pp => 0 ≤ cp ∧ 0 ≤ pp
  | .strangle cs ps cp pp => ps ≤ cs ∧ 0 ≤ cp ∧ 0 ≤ pp
  | .callSpread bs ss bp sp => bs ≤ ss ∧ 0 ≤ bp - sp ∧ bp - sp ≤ ss - bs
  | .putSpread bs ss bp sp => ss ≤ bs ∧ 0 ≤ bp - sp ∧ bp - sp ≤ bs - ss
  | .butterfly ls ms hs lpr mpr hpr =>
      ls ≤ ms ∧ ms ≤ hs ∧ hs - ms = ms - ls ∧
        0 ≤ lpr - 2*mpr + hpr ∧ lpr - 2*mpr + hpr ≤ ms - ls

/-! ## Strategy analyzer (strategy_analyzer.py) -/

/-- `StrategyAnalyzer._calculate_risk_reward_ratio`; `none` models the
`float('inf')` return value.  Note the source returns `0` for a strategy
whose max profit is the infinity sentinel when max loss is nonzero, and
infinity when max loss is zero (because `float('inf') > 0` is true). -/
def risk_reward (s : Strategy) : Option ℚ :=
  if |get_max_loss s| = 0 then
    match get_max_profit s with
    | none => none
    | some mpr => if 0 < mpr then none else some 0
  else
    match get_max_profit s with
    | none => some 0
    | some mpr => some (mpr / |get_max_loss s|)

/-! ## Trading engine (trading_engine.py) -/

/-- The `Trade` dataclass. -/
structure Trade where
  id : String
  symbol : String
  strategy_type : String
  entry_date : ℤ
  exit_date : ℤ
  entry_price : ℚ
  exit_price : ℚ
  quantity : ℤ
  pnl : ℚ
  action : String
  deriving DecidableEq

/-- The `Position` dataclass. -/
structure Position where
  id : String
  symbol : String
  strategy_type : String
  entry_date : ℤ
  entry_price : ℚ
  quantity : ℤ
  current_price : ℚ
  unrealized_pnl : ℚ
  deriving DecidableEq

/-- The `SimulationConfig` dataclass. -/
structure SimulationConfig where
  initial_capital : ℚ
  risk_per_trade : ℚ
  max_concurrent_trades : ℕ
  simulation_days : ℕ
  deriving DecidableEq

/-- The mutable state of a `TradingEngine`: the ledger (cash, open
positions, closed trades, trade counter) plus the registered strategies, the
configuration, the simulated current date, the fixed process date `today`
modelling `date.today()`, and the cursor into the injected random stream. -/
structure Engine where
  cash : ℚ
  positions : List Position
  trades : List Trade
  strategies : List Strategy
  config : SimulationConfig
  current_date : ℤ
  trade_counter : ℕ
  today : ℤ
  rand_index : ℕ
  deriving DecidableEq

/-- `next((s for s in strategies if s.symbol == sym), None)`. -/
def findStrategy (l : List Strategy) (sym : String) : Option Strategy :=
  l.find? (fun s => s.base.symbol == sym)

/-- `next((p for p in positions if p.symbol == sym), None)`. -/
def findPosition (l : List Position) (sym : String) : Option Position :=
  l.find? (fun p => p.symbol == sym)

/-- Assignment `strategy.current_price = price` where `strategy` is the
first list element with the given symbol. -/
def setStrategyPrice : List Strategy → String → ℚ → List Strategy
  | [], _, _ => []
  | s :: rest, sym, price =>
      if s.base.symbol == sym then
        { s with base := { s.base with current_price := price } } :: rest
      else s :: setStrategyPrice rest sym price

/-- `TradingEngine.calculate_position_size`. -/
def calculate_position_size (e : Engine) (s : Strategy) : ℤ :=
  if |get_max_loss s| ≤ 0 then 0
  else min (pyInt (e.cash * e.config.risk_per_trade / |get_max_loss s|)) 10

/-- Body of `TradingEngine.should_enter_trade`, with the first registered
strategy (`self.strategies[0]`) passed explicitly. -/
def should_enter_trade_core (e : Engine) (first s : Strategy) : Bool :=
  if calculate_position_size e s ≤ 0 then false
  else if e.config.max_concurrent_trades ≤ e.positions.length then false
  else if is_expired s e.today then false
  else if sameClass s first && hasNetCredit s then
    decide (30 ≤ days_to_expiration s e.today ∧ days_to_expiration s e.today ≤ 45)
  else if hasTotalCost s then
    decide (15 ≤ days_to_expiration s e.today ∧ days_to_expiration s e.today ≤ 30)
  else true

/-- `TradingEngine.should_enter_trade`; `none` models the `IndexError`
raised by `self.strategies[0]` when no strategy is registered. -/
def should_enter_trade (e : Engine) (s : Strategy) : Option Bool :=
  match e.strategies with
  | [] => none
  | first :: _ => some (should_enter_trade_core e first s)

/-- `TradingEngine.should_exit_trade`.  The short-circuit `or` mirrors the
early returns of the source. -/
def should_exit_trade (e : Engine) (p : Position) (s : Strategy) : Bool :=
  is_expired s e.today ||
  decide (((e.current_date - p.entry_date : ℤ) : ℚ) ≥
    ((days_to_expiration s e.today : ℤ) : ℚ) * (1/2)) ||
  ((get_max_profit s).elim false
    (fun mpr => decide (p.unrealized_pnl ≥ mpr * (1/2)))) ||
  decide (p.unrealized_pnl ≤ get_max_loss s * (1/2))

/-- `TradingEngine.simulate_price_movement` with the random draw passed
explicitly: `max(price + price * dailyReturn * days, 0.01)`. -/
def simulate_price_movement (current_price : ℚ) (days : ℚ) (r : ℚ) : ℚ :=
  max (current_price + current_price * r * days) (1/100)

/-- Loop body of `TradingEngine.update_positions`: walks the open positions
in order, skipping positions with no matching strategy, otherwise drawing
one random return, moving the price, mirroring the price into the strategy
object and recomputing unrealized P&L. -/
def update_positions_go (rand : ℕ → ℚ) :
    List Position → List Strategy → ℕ → List Position × List Strategy × ℕ
  | [], strats, idx => ([], strats, idx)
  | p :: rest, strats, idx =>
      match findStrategy strats p.symbol with
      | none =>
          let r := update_positions_go rand rest strats idx
          (p :: r.1, r.2.1, r.2.2)
      | some st =>
          let np := simulate_price_movement p.current_price 1 (rand idx)
          let p2 := { p with current_price := np,
                             unrealized_pnl := calculate_payoff st np * (p.quantity : ℚ) }
          let r := update_positions_go rand rest (setStrategyPrice strats p.symbol np) (idx + 1)
          (p2 :: r.1, r.2.1, r.2.2)

/-- `TradingEngine.update_positions`. -/
def update_positions (e : Engine) (rand : ℕ → ℚ) : Engine :=
  let r := update_positions_go rand e.positions e.strategies e.rand_index
  { e with positions := r.1, strategies := r.2.1, rand_index := r.2.2 }

/-- `TradingEngine.close_position`: `(none, e)` models the early
`return None` that leaves the engine untouched when no strategy matches the
position's symbol. -/
def close_position (e : Engine) (p : Position) : Option Trade × Engine :=
  match findStrategy e.strategies p.symbol with
  | none => (none, e)
  | some st =>
      let pnl := calculate_payoff st p.current_price * (p.quantity : ℚ)
      let t : Trade :=
        { id := "T" ++ pad4 e.trade_counter
          symbol := p.symbol
          strategy_type := p.strategy_type
          entry_date := p.entry_date
          exit_date := e.current_date
          entry_price := p.entry_price
          exit_price := p.current_price
          quantity := p.quantity
          pnl := pnl
          action := "SELL" }
      (some t,
        { e with
          strategies := setStrategyPrice e.strategies p.symbol p.current_price
          cash := e.cash + pnl
          trades := e.trades ++ [t]
          trade_counter := e.trade_counter + 1
          positions := e.positions.erase p })

/-- Guard under which `run_simulation` opens a position for a strategy on a
given day: `should_enter_trade` returned `True`, no open position exists for
the symbol, and the recomputed position size is positive. -/
def entersPosition (e : Engine) (s : Strategy) : Bool :=
  (should_enter_trade e s == some true) &&
  (findPosition e.positions s.base.symbol).isNone &&
  decide (0 < calculate_position_size e s)

/-- The `Position` record `run_simulation` appends on entry; the identifier
is `"P"` followed by the zero-padded count of currently open positions plus
one. -/
def openPosition (e : Engine) (s : Strategy) : Engine :=
  { e with positions := e.positions ++
      [{ id := "P" ++ pad4 (e.positions.length + 1)
         symbol := s.base.symbol
         strategy_type := typeName s
         entry_date := e.current_date
         entry_price := s.base.current_price
         quantity := calculate_position_size e s
         current_price := s.base.current_price
         unrealized_pnl := 0 }] }

/-- Exit phase of one simulated day: collect the open positions whose
strategy exists and whose exit rule fires, then close them in order. -/
def exit_phase (e : Engine) : Engine :=
  (e.positions.filter (fun p =>
      match findStrategy e.strategies p.symbol with
      | some st => should_exit_trade e p st
      | none => false)).foldl
    (fun acc p => (close_position acc p).2) e

/-- Entry phase of one simulated day: try every registered strategy in
order. -/
def entry_phase (e : Engine) : Engine :=
  e.strategies.foldl
    (fun acc s => if entersPosition acc s then openPosition acc s else acc) e

/-- One iteration of the day loop in `run_simulation`: set the simulated
date, update positions, run exits, then entries. -/
def dayStep (rand : ℕ → ℚ) (e : Engine) (day : ℕ) : Engine :=
  entry_phase (exit_phase
    (update_positions { e with current_date := e.today + (day : ℤ) } rand))

/-- State reset at the top of `run_simulation`. -/
def resetEngine (e : Engine) : Engine :=
  { e with cash := e.config.initial_capital, positions := [], trades := [],
           current_date := e.today }

/-- Engine state after the first `n` simulated days of a `run_simulation`
call. -/
def afterDays (e : Engine) (rand : ℕ → ℚ) (n : ℕ) : Engine :=
  (List.range n).foldl (dayStep rand) (resetEngine e)

/-- Forced close of all remaining positions at the end of the run
(`for position in self.positions[:]`). -/
def forceCloseAll (e : Engine) : Engine :=
  e.positions.foldl (fun acc p => (close_position acc p).2) e

/-- The result dictionary of `run_simulation`. -/
structure SimResult where
  final_value : ℚ
  total_return : ℚ
  total_trades : ℕ
  winning_trades : ℕ
  losing_trades : ℕ
  win_rate : ℚ
  trades : List Trade
  deriving DecidableEq

/-- `TradingEngine.run_simulation`; `none` models the `ZeroDivisionError`
in the total-return computation when `initial_capital` is zero. -/
def run_simulation (e : Engine) (rand : ℕ → ℚ) : Option SimResult :=
  let ef := forceCloseAll (afterDays e rand e.config.simulation_days)
  let total_trades := ef.trades.length
  let winning := (ef.trades.filter (fun t => decide (0 < t.pnl))).length
  if e.config.initial_capital = 0 then none
  else some
    { final_value := ef.cash
      total_return := (ef.cash - e.config.initial_capital) / e.config.initial_capital * 100
      total_trades := total_trades
      winning_trades := winning
      losing_trades := total_trades - winning
      win_rate := if 0 < total_trades then (winning : ℚ) / (total_trades : ℚ) * 100 else 0
      trades := ef.trades }

/-! ## Concrete instances used by witnesses and counterexamples -/

/-- The iron condor of the specification's concrete scenario: reference
price 150, short call 155, long call 160, short put 145, long put 140, net
credit 2.50, 40 days to expiration. -/
def icEx : Strategy := ⟨⟨"SPY", 150, 40, 0⟩, .ironCondor 155 160 145 140 (5/2)⟩

/-- The straddle of the specification's concrete scenario: strike 200, call
premium 15, put premium 12. -/
def straddleEx : Strategy := ⟨⟨"TSLA", 200, 20, 0⟩, .straddle 200 15 12⟩

/-- A call spread: buy strike 100, sell strike 110, buy premium 5, sell
premium 1 (net debit 4), reference price 104.25, 100 days to expiration. -/
def csEx : Strategy := ⟨⟨"AAA", 417/4, 100, 0⟩, .callSpread 100 110 5 1⟩

/-- A second call spread with the same legs on another symbol. -/
def csB : Strategy := ⟨⟨"BBB", 417/4, 100, 0⟩, .callSpread 100 110 5 1⟩

/-- Default-style configuration: capital 10000, risk 2%, at most 5
concurrent trades, 30 days. -/
def cfgStd : SimulationConfig := ⟨10000, 2/100, 5, 30⟩

/-- An open position on `csEx` at its reference price. -/
def pC3 : Position := ⟨"P0001", "AAA", "CallSpread", 0, 417/4, 10, 417/4, 5/2⟩

/-- Engine holding `pC3` with `csEx` registered. -/
def eC3 : Engine := ⟨10000, [pC3], [], [csEx], cfgStd, 1, 0, 0, 0⟩

/-- Engine for the specification's sizing scenario: cash 10000, risk 2%,
the 2.50-max-loss iron condor registered. -/
def eC4 : Engine := ⟨10000, [], [], [icEx], cfgStd, 0, 0, 0, 0⟩

/-- Engine with a negative cash balance. -/
def eC4x : Engine := ⟨-10050, [], [], [csEx], cfgStd, 0, 0, 0, 0⟩

/-- A losing open position on `csEx`: price crashed to 0.01, unrealized
P&L −40. -/
def pC5 : Position := ⟨"P0001", "AAA", "CallSpread", 0, 417/4, 10, 1/100, -40⟩

/-- Engine with one registered call spread and no open position on it. -/
def eC6 : Engine := ⟨10000, [], [], [csEx], cfgStd, 0, 0, 0, 0⟩

/-- Engine with the iron condor registered first, 40 days out. -/
def eC6w : Engine := ⟨10000, [], [], [icEx], cfgStd, 0, 0, 0, 0⟩

/-- Engine with no strategies and nonzero capital, one simulated day. -/
def eC8w : Engine := ⟨10000, [], [], [], ⟨10000, 2/100, 5, 1⟩, 0, 0, 0, 0⟩

/-- Engine configured with zero initial capital. -/
def eC8zero : Engine := ⟨0, [], [], [], ⟨0, 2/100, 5, 1⟩, 0, 0, 0, 0⟩

/-- The all-zero random stream. -/
def rand0 : ℕ → ℚ := fun _ => 0

/-- A position whose symbol matches no registered strategy. -/
def pC9 : Position := ⟨"P0001", "ZZZ", "CallSpread", 0, 100, 10, 100, 0⟩

/-- Engine holding `pC9`; only `csEx` (symbol AAA) is registered. -/
def eC9 : Engine := ⟨10000, [pC9], [], [csEx], cfgStd, 1, 0, 0, 0⟩

/-- Configuration for the duplicate-identifier run: at most two concurrent
trades, two simulated days. -/
def cfg2 : SimulationConfig := ⟨10000, 2/100, 2, 2⟩

/-- Engine for the duplicate-identifier run: two call spreads registered. -/
def eC10 : Engine := ⟨10000, [], [], [csEx, csB], cfg2, 0, 0, 0, 0⟩

/-- Random stream for the duplicate-identifier run: the first draw crashes
the first position's price, later draws leave prices unchanged. -/
def randC10 : ℕ → ℚ := fun n => if n = 0 then -1 else 0

/-- `csEx` after the run marks its reference price down to 0.01. -/
def csExLow : Strategy := ⟨⟨"AAA", 1/100, 100, 0⟩, .callSpread 100 110 5 1⟩

/-- Position opened on symbol AAA on day 0 of the duplicate-identifier
run. -/
def pA0 : Position := ⟨"P0001", "AAA", "CallSpread", 0, 417/4, 10, 417/4, 0⟩

/-- Position opened on symbol BBB on day 0 of the duplicate-identifier
run. -/
def pB0 : Position := ⟨"P0002", "BBB", "CallSpread", 0, 417/4, 10, 417/4, 0⟩

/-- The AAA position after the day-1 price crash to 0.01. -/
def pA1 : Position := ⟨"P0001", "AAA", "CallSpread", 0, 417/4, 10, 1/100, -40⟩

/-- The BBB position after its unchanged day-1 update. -/
def pB1 : Position := ⟨"P0002", "BBB", "CallSpread", 0, 417/4, 10, 417/4, 5/2⟩

/-- The AAA position re-opened on day 1, reusing identifier P0002. -/
def pA2 : Position := ⟨"P0002", "AAA", "CallSpread", 1, 1/100, 10, 1/100, 0⟩

/-- The trade realized by closing `pA1`. -/
def tA : Trade := ⟨"T0000", "AAA", "CallSpread", 0, 1, 417/4, 1/100, 10, -40, "SELL"⟩

/-- Engine state of the duplicate-identifier run after the day-0 entry of
AAA. -/
def eD0a : Engine := ⟨10000, [pA0], [], [csEx, csB], cfg2, 0, 0, 0, 0⟩

/-- Engine state after day 0. -/
def eDay0 : Engine := ⟨10000, [pA0, pB0], [], [csEx, csB], cfg2, 0, 0, 0, 0⟩

/-- Engine state at the start of day 1, after setting the simulated date. -/
def eDay0c : Engine := ⟨10000, [pA0, pB0], [], [csEx, csB], cfg2, 1, 0, 0, 0⟩

/-- Engine state after the day-1 position update. -/
def eUpd : Engine := ⟨10000, [pA1, pB1], [], [csExLow, csB], cfg2, 1, 0, 0, 2⟩

/-- Engine state after the day-1 exit closes the AAA position. -/
def eClosed : Engine := ⟨9960, [pB1], [tA], [csExLow, csB], cfg2, 1, 1, 0, 2⟩

/-- Engine state after day 1: AAA re-entered under the duplicate identifier
P0002. -/
def eDay1 : Engine := ⟨9960, [pB1, pA2], [tA], [csExLow, csB], cfg2, 1, 1, 0, 2⟩

/-! ## Theorems -/

/-- Claim C1: for every strategy variant (well-formed per the data-model
invariants) and every spot price ≥ 0, `calculate_payoff spot` is at least
`-get_max_loss`, and at most `get_max_profit` whenever the latter is
finite. -/
theorem C1_payoff_within_bounds (s : Strategy) (spot : ℚ)
    (hw : WellFormed s) (hs : 0 ≤ spot) :
    -(get_max_loss s) ≤ calculate_payoff s spot ∧
      (∀ mpr, get_max_profit s = some mpr → calculate_payoff s spot ≤ mpr) := by
  obtain ⟨b, d⟩ := s
  cases d with
  | ironCondor scs lcs sps lps credit =>
      obtain ⟨h1, h2, h3, h4, h5, h6⟩ := hw
      constructor
      · simp only [calculate_payoff, get_max_loss]
        split_ifs with hc hp hp
        · linarith
        · linarith [min_le_right (spot - scs) (lcs - scs),
            le_max_left (lcs - scs) (sps - lps)]
        · linarith [min_le_right (sps - spot) (sps - lps),
            le_max_right (lcs - scs) (sps - lps)]
        · linarith [le_max_left (lcs - scs) (sps - lps)]
      · intro mpr hmp
        simp only [get_max_profit] at hmp
        obtain rfl := Option.some.inj hmp
        simp only [calculate_payoff]
        split_ifs with hc hp hp
        · linarith
        · linarith [le_min (by linarith : (0:ℚ) ≤ spot - scs)
            (by linarith : (0:ℚ) ≤ lcs - scs)]
        · linarith [le_min (by linarith : (0:ℚ) ≤ sps - spot)
            (by linarith : (0:ℚ) ≤ sps - lps)]
        · linarith
  | straddle k cp pp =>
      obtain ⟨h1, h2⟩ := hw
      refine ⟨?_, fun mpr hmp => Option.noConfusion hmp⟩
      simp only [calculate_payoff, get_max_loss]
      linarith [le_max_left (0:ℚ) (spot - k), le_max_left (0:ℚ) (k - spot)]
  | strangle cs ps cp pp =>
      obtain ⟨h1, h2, h3⟩ := hw
      refine ⟨?_, fun mpr hmp => Option.noConfusion hmp⟩
      simp only [calculate_payoff, get_max_loss]
      linarith [le_max_left (0:ℚ) (spot - cs), le_max_left (0:ℚ) (ps - spot)]
  | callSpread bs ss bp sp =>
      obtain ⟨h1, h2, h3⟩ := hw
      constructor
      · simp only [calculate_payoff, get_max_loss]
        split_ifs <;> linarith
      · intro mpr hmp
        simp only [get_max_profit] at hmp
        obtain rfl := Option.some.inj hmp
        simp only [calculate_payoff]
        split_ifs <;> linarith
  | putSpread bs ss bp sp =>
      obtain ⟨h1, h2, h3⟩ := hw
      constructor
      · simp only [calculate_payoff, get_max_loss]
        split_ifs <;> linarith
      · intro mpr hmp
        simp only [get_max_profit] at hmp
        obtain rfl := Option.some.inj hmp
        simp only [calculate_payoff]
        split_ifs <;> linarith
  | butterfly ls ms hs2 lpr mpr2 hpr =>
      obtain ⟨h1, h2, h3, h4, h5⟩ := hw
      constructor
      · simp only [calculate_payoff, get_max_loss]
        split_ifs <;> linarith
      · intro mpr hmp
        simp only [get_max_profit] at hmp
        obtain rfl := Option.some.inj hmp
        simp only [calculate_payoff]
        split_ifs <;> linarith

/-- Claim C1, witnessed on the specification's iron condor scenario at spot
price 150: payoff within `-max_loss` and the finite max profit 2.50. -/
theorem C1_payoff_within_bounds_witness :
    -(get_max_loss icEx) ≤ calculate_payoff icEx 150 ∧
      calculate_payoff icEx 150 ≤ 5/2 :=
  ⟨(C1_payoff_within_bounds icEx 150 (by norm_num [WellFormed, icEx]) (by norm_num)).1,
   (C1_payoff_within_bounds icEx 150 (by norm_num [WellFormed, icEx]) (by norm_num)).2
     (5/2) rfl⟩

/-- Claim C2: for every well-formed strategy variant, the payoff at each
declared break-even point is exactly 0. -/
theorem C2_break_even_payoff_zero (s : Strategy) (b : ℚ)
    (hw : WellFormed s) (hb : b ∈ get_break_even_points s) :
    calculate_payoff s b = 0 := by
  obtain ⟨ba, d⟩ := s
  cases d with
  | ironCondor scs lcs sps lps credit =>
      obtain ⟨h1, h2, h3, h4, h5, h6⟩ := hw
      simp only [get_break_even_points, List.mem_cons, List.not_mem_nil,
        or_false] at hb
      rcases hb with rfl | rfl <;>
        · simp only [calculate_payoff]
          split_ifs with hc hp hp <;>
            first
              | linarith
              | linarith [min_le_left (sps - credit - scs) (lcs - scs),
                  min_le_left (sps - (sps - credit)) (sps - lps),
                  le_min (show credit ≤ sps - (sps - credit) by linarith) h6,
                  min_le_left (scs + credit - scs) (lcs - scs),
                  le_min (show credit ≤ scs + credit - scs by linarith) h5]
  | straddle k cp pp =>
      obtain ⟨h1, h2⟩ := hw
      simp only [get_break_even_points, List.mem_cons, List.not_mem_nil,
        or_false] at hb
      rcases hb with rfl | rfl
      · simp only [calculate_payoff]
        rw [show k - (cp + pp) - k = -(cp + pp) by ring,
          show k - (k - (cp + pp)) = cp + pp by ring,
          max_eq_left (by linarith), max_eq_right (by linarith)]
        ring
      · simp only [calculate_payoff]
        rw [show k + (cp + pp) - k = cp + pp by ring,
          show k - (k + (cp + pp)) = -(cp + pp) by ring,
          max_eq_right (by linarith), max_eq_left (by linarith)]
        ring
  | strangle cs ps cp pp =>
      obtain ⟨h1, h2, h3⟩ := hw
      simp only [get_break_even_points, List.mem_cons, List.not_mem_nil,
        or_false] at hb
      rcases hb with rfl | rfl
      · simp only [calculate_payoff]
        rw [show ps - (cp + pp) - cs = (ps - cs) - (cp + pp) by ring,
          show ps - (ps - (cp + pp)) = cp + pp by ring,
          max_eq_left (by linarith), max_eq_right (by linarith)]
        ring
      · simp only [calculate_payoff]
        rw [show cs + (cp + pp) - cs = cp + pp by ring,
          show ps - (cs + (cp + pp)) = (ps - cs) - (cp + pp) by ring,
          max_eq_right (by linarith), max_eq_left (by linarith)]
        ring
  | callSpread bs ss bp sp =>
      obtain ⟨h1, h2, h3⟩ := hw
      simp only [get_break_even_points, List.mem_cons, List.not_mem_nil,
        or_false] at hb
      rcases hb with rfl
      simp only [calculate_payoff]
      split_ifs <;> linarith
  | putSpread bs ss bp sp =>
      obtain ⟨h1, h2, h3⟩ := hw
      simp only [get_break_even_points, List.mem_cons, List.not_mem_nil,
        or_false] at hb
      rcases hb with rfl
      simp only [calculate_payoff]
      split_ifs <;> linarith
  | butterfly ls ms hs2 lpr mpr2 hpr =>
      obtain ⟨h1, h2, h3, h4, h5⟩ := hw
      simp only [get_break_even_points, List.mem_cons, List.not_mem_nil,
        or_false] at hb
      rcases hb with rfl | rfl <;>
        · simp only [calculate_payoff]
          split_ifs <;> linarith

/-- Claim C2, witnessed on the specification's straddle scenario: payoff at
the declared upper break-even point 227 is 0. -/
theorem C2_break_even_payoff_zero_witness :
    calculate_payoff straddleEx 227 = 0 :=
  C2_break_even_payoff_zero straddleEx 227 (by norm_num [WellFormed, straddleEx])
    (by norm_num [get_break_even_points, straddleEx])

/-- Helper: Python truncation agrees with the floor on non-negative
arguments. -/
theorem pyInt_eq_floor_of_nonneg (q : ℚ) (h : 0 ≤ q) : pyInt q = ⌊q⌋ := by
  simp [pyInt, h]

/-- Claim C3 (amended): closing a position whose symbol matches a registered
strategy adds exactly the realized P&L (`calculate_payoff` at the position's
current price times its quantity) to cash, appends one Trade carrying that
P&L, removes the position from the open list, and increments the ledger's
trade counter by one; the remaining engine fields are unchanged apart from
the matched strategy's mirrored reference price. -/
theorem C3_close_position_effects (e : Engine) (p : Position) (st : Strategy)
    (hf : findStrategy e.strategies p.symbol = some st) :
    ∃ t, close_position e p = (some t,
        { e with
          strategies := setStrategyPrice e.strategies p.symbol p.current_price
          cash := e.cash + calculate_payoff st p.current_price * (p.quantity : ℚ)
          trades := e.trades ++ [t]
          trade_counter := e.trade_counter + 1
          positions := e.positions.erase p }) ∧
      t.pnl = calculate_payoff st p.current_price * (p.quantity : ℚ) := by
  simp only [close_position, hf]
  exact ⟨_, rfl, rfl⟩

/-- Claim C3, witnessed on `eC3`/`pC3`: the realized P&L is 2.50 and the
close performs exactly the amended ledger update. -/
theorem C3_close_position_effects_witness :
    ∃ t, close_position eC3 pC3 = (some t,
        { eC3 with
          strategies := setStrategyPrice eC3.strategies pC3.symbol pC3.current_price
          cash := eC3.cash + calculate_payoff csEx pC3.current_price * (pC3.quantity : ℚ)
          trades := eC3.trades ++ [t]
          trade_counter := eC3.trade_counter + 1
          positions := eC3.positions.erase pC3 }) ∧
      t.pnl = calculate_payoff csEx pC3.current_price * (pC3.quantity : ℚ) :=
  C3_close_position_effects eC3 pC3 csEx rfl

/-- Claim C3, counterexample to the claim as stated: the trade counter is a
ledger field and it does change on a successful close. -/
theorem C3_close_position_counter_changes :
    (close_position eC3 pC3).2.trade_counter ≠ eC3.trade_counter := by
  simp [close_position, findStrategy, eC3, pC3, csEx]

/-- Claim C9: closing a position whose symbol matches no registered strategy
returns `None` and leaves the whole engine state — cash, open positions,
trades and the trade counter — exactly unchanged. -/
theorem C9_close_position_no_strategy (e : Engine) (p : Position)
    (hf : findStrategy e.strategies p.symbol = none) :
    close_position e p = (none, e) := by
  simp only [close_position, hf]

/-- Claim C9, witnessed on `eC9`/`pC9` (symbol ZZZ matches nothing). -/
theorem C9_close_position_no_strategy_witness :
    close_position eC9 pC9 = (none, eC9) :=
  C9_close_position_no_strategy eC9 pC9 (by simp [findStrategy, eC9, csEx, pC9])

/-- Claim C4 (amended): for every strategy, non-negative cash balance and
non-negative risk fraction, the computed position size equals
`floor(cash * risk_per_trade / |max_loss|)` capped at 10; when
`|max_loss| ≤ 0` or the computed size is ≤ 0 the size is 0 and entry is
blocked. -/
theorem C4_position_size_formula (e : Engine) (s : Strategy)
    (hc : 0 ≤ e.cash) (hr : 0 ≤ e.config.risk_per_trade) :
    (|get_max_loss s| ≤ 0 → calculate_position_size e s = 0) ∧
    (0 < |get_max_loss s| → calculate_position_size e s =
      min ⌊e.cash * e.config.risk_per_trade / |get_max_loss s|⌋ 10) ∧
    ((|get_max_loss s| ≤ 0 ∨ calculate_position_size e s ≤ 0) →
      calculate_position_size e s = 0 ∧ entersPosition e s = false) := by
  have hq : (0:ℚ) ≤ e.cash * e.config.risk_per_trade / |get_max_loss s| :=
    div_nonneg (mul_nonneg hc hr) (abs_nonneg _)
  have hsize : |get_max_loss s| ≤ 0 ∨ 0 < |get_max_loss s| := le_or_lt _ 0
  refine ⟨fun h => by simp [calculate_position_size, h], fun h => ?_, fun h => ?_⟩
  · rw [calculate_position_size, if_neg (by linarith), pyInt_eq_floor_of_nonneg _ hq]
  · have h0 : calculate_position_size e s = 0 := by
      rcases hsize with h1 | h1
      · simp [calculate_position_size, h1]
      · rcases h with h | h
        · linarith
        · have hfl : (0:ℤ) ≤ ⌊e.cash * e.config.risk_per_trade / |get_max_loss s|⌋ :=
            Int.le_floor.mpr (by exact_mod_cast hq)
          rw [calculate_position_size, if_neg (by linarith),
            pyInt_eq_floor_of_nonneg _ hq] at h ⊢
          omega
    refine ⟨h0, ?_⟩
    simp only [entersPosition, Bool.and_eq_false_iff, decide_eq_false_iff_not]
    right
    omega

/-- Claim C4, witnessed on the specification's sizing scenario: cash 10000,
risk 0.02, max loss 2.50 give `min (floor 80) 10 = 10`. -/
theorem C4_position_size_formula_witness :
    calculate_position_size eC4 icEx = 10 := by
  have h := (C4_position_size_formula eC4 icEx (by norm_num [eC4])
    (by norm_num [eC4, cfgStd])).2.1
      (by norm_num [get_max_loss, icEx])
  rw [h]
  have hml : |get_max_loss icEx| = 5/2 := by
    rw [show get_max_loss icEx = 5/2 by norm_num [get_max_loss, icEx]]
    rw [abs_of_pos (by norm_num : (0:ℚ) < 5/2)]
  have h80 : (eC4.cash * eC4.config.risk_per_trade / |get_max_loss icEx| : ℚ) = 80 := by
    rw [hml]
    norm_num [eC4, cfgStd]
  rw [h80]
  norm_num

/-- Claim C4, counterexample to the claim as stated: with cash −10050 and
risk 0.02 against max loss 4, the code computes
`min(int(-50.25), 10) = -50`, which is neither `min(floor(-50.25), 10) = -51`
nor 0, although the computed size is ≤ 0. -/
theorem C4_negative_cash_counterexample :
    calculate_position_size eC4x csEx = -50 ∧
      calculate_position_size eC4x csEx ≤ 0 ∧
      min ⌊eC4x.cash * eC4x.config.risk_per_trade / |get_max_loss csEx|⌋ 10 = -51 := by
  have hml : |get_max_loss csEx| = 4 := by
    rw [show get_max_loss csEx = 4 by norm_num [get_max_loss, csEx]]
    rw [abs_of_pos (by norm_num : (0:ℚ) < 4)]
  have hnn : ¬ (|get_max_loss csEx| ≤ 0) := by rw [hml]; norm_num
  have hq : (eC4x.cash * eC4x.config.risk_per_trade / |get_max_loss csEx| : ℚ)
      = -201/4 := by
    rw [hml]
    norm_num [eC4x, cfgStd]
  refine ⟨?_, ?_, ?_⟩
  · rw [calculate_position_size, if_neg hnn, hq]
    norm_num [pyInt]
  · rw [calculate_position_size, if_neg hnn, hq]
    norm_num [pyInt]
  · rw [hq]
    norm_num

/-- Claim C5: the exit decision for an open position is exactly the ordered
disjunction of: strategy expired; days held since position entry at least
half the strategy's days-to-expiration at (the strategy's) entry; unrealized
P&L at least half of max profit, tested only when max profit is finite;
unrealized P&L at most half of max loss.  The hypothesis records that the
strategy was constructed on the engine's (fixed) process date, so its
remaining days-to-expiration coincide with its days-to-expiration at
entry. -/
theorem C5_exit_rule_iff (e : Engine) (p : Position) (s : Strategy)
    (h : s.base.entry_date = e.today) :
    should_exit_trade e p s = true ↔
      (is_expired s e.today = true ∨
       ((e.current_date - p.entry_date : ℤ) : ℚ) ≥
         ((s.base.expiration - s.base.entry_date : ℤ) : ℚ) * (1/2) ∨
       (∃ mpr, get_max_profit s = some mpr ∧ p.unrealized_pnl ≥ mpr * (1/2)) ∨
       p.unrealized_pnl ≤ get_max_loss s * (1/2)) := by
  rw [should_exit_trade, days_to_expiration, h]
  cases hm : get_max_profit s <;>
    simp [hm, Option.elim, Bool.or_eq_true, decide_eq_true_eq] <;> tauto

/-- Claim C5, witnessed on a crashed call-spread position: unrealized P&L
−40 is below half the max loss 4, so the exit rule fires. -/
theorem C5_exit_rule_iff_witness :
    should_exit_trade eC3 pC5 csEx = true :=
  (C5_exit_rule_iff eC3 pC5 csEx rfl).mpr
    (Or.inr (Or.inr (Or.inr (by norm_num [pC5, get_max_loss, csEx]))))

/-- Claim C7 (amended): when `max_loss ≠ 0` the analyzer's risk/reward ratio
is `max_profit / |max_loss|` for finite max profit but 0 for the infinite
sentinel; when `max_loss = 0` it is `+∞` (the sentinel, including for
infinite max profit) if max profit is positive and 0 otherwise. -/
theorem C7_risk_reward_cases (s : Strategy) :
    (get_max_loss s ≠ 0 →
      (∀ mpr, get_max_profit s = some mpr →
        risk_reward s = some (mpr / |get_max_loss s|)) ∧
      (get_max_profit s = none → risk_reward s = some 0)) ∧
    (get_max_loss s = 0 →
      (get_max_profit s = none → risk_reward s = none) ∧
      (∀ mpr, get_max_profit s = some mpr →
        risk_reward s = if 0 < mpr then none else some 0)) := by
  constructor
  · intro h
    have ha : ¬ |get_max_loss s| = 0 := by simpa [abs_eq_zero] using h
    exact ⟨fun mpr hm => by simp [risk_reward, ha, hm],
      fun hm => by simp [risk_reward, ha, hm]⟩
  · intro h
    have ha : |get_max_loss s| = 0 := by simp [abs_eq_zero, h]
    exact ⟨fun hm => by simp [risk_reward, ha, hm],
      fun mpr hm => by simp [risk_reward, ha, hm]⟩

/-- Claim C7, witnessed on the iron condor: max loss 2.50 is nonzero and max
profit 2.50 finite, so the ratio is 1. -/
theorem C7_risk_reward_cases_witness : risk_reward icEx = some 1 := by
  have h := (C7_risk_reward_cases icEx).1 (by norm_num [get_max_loss, icEx]) |>.1
    (5/2) rfl
  have hml : |get_max_loss icEx| = 5/2 := by
    rw [show get_max_loss icEx = 5/2 by norm_num [get_max_loss, icEx]]
    rw [abs_of_pos (by norm_num : (0:ℚ) < 5/2)]
  rw [h, hml]
  norm_num

/-- Claim C7, counterexample to the claim as stated: the straddle has
nonzero max loss 27 and infinite max profit, so the claimed ratio
`max_profit / |max_loss|` is the infinity sentinel, yet the source returns
0. -/
theorem C7_infinite_profit_counterexample :
    risk_reward straddleEx = some 0 ∧ get_max_profit straddleEx = none ∧
      get_max_loss straddleEx ≠ 0 := by
  have hml : |get_max_loss straddleEx| = 27 := by
    rw [show get_max_loss straddleEx = 27 by norm_num [get_max_loss, straddleEx]]
    rw [abs_of_pos (by norm_num : (0:ℚ) < 27)]
  refine ⟨?_, rfl, by rw [show get_max_loss straddleEx = 27 by
    norm_num [get_max_loss, straddleEx]]; norm_num⟩
  rw [risk_reward, if_neg (by rw [hml]; norm_num)]
  rfl

/-- Claim C6 (amended): a strategy is entered on a simulated day only if its
position size is positive, the open-position count is below the concurrency
limit, the strategy is not expired, and no open position exists for its
symbol; the days-to-expiration window applies only as the source dispatches
it — 30 to 45 days inclusive when the strategy has a `net_credit` attribute
and is an instance of the first registered strategy's class, 15 to 30 days
inclusive when it has a `total_cost` attribute (Straddle or Strangle), and
no window at all otherwise (in particular none for Call/Put Spread or
Butterfly). -/
theorem C6_entry_conditions (e : Engine) (s : Strategy)
    (h : entersPosition e s = true) :
    0 < calculate_position_size e s ∧
    e.positions.length < e.config.max_concurrent_trades ∧
    is_expired s e.today = false ∧
    (∀ p ∈ e.positions, p.symbol ≠ s.base.symbol) ∧
    (∀ first rest, e.strategies = first :: rest →
      ((sameClass s first && hasNetCredit s) = true →
        30 ≤ days_to_expiration s e.today ∧ days_to_expiration s e.today ≤ 45) ∧
      ((sameClass s first && hasNetCredit s) = false → hasTotalCost s = true →
        15 ≤ days_to_expiration s e.today ∧ days_to_expiration s e.today ≤ 30)) := by
  rw [entersPosition] at h
  simp only [Bool.and_eq_true, beq_iff_eq, Option.isNone_iff_eq_none,
    decide_eq_true_eq] at h
  obtain ⟨⟨henter, hnone⟩, hpos⟩ := h
  have hsym : ∀ p ∈ e.positions, p.symbol ≠ s.base.symbol := by
    intro p hp
    have hfind := List.find?_eq_none.mp hnone p hp
    simpa using hfind
  cases hstr : e.strategies with
  | nil => rw [should_enter_trade, hstr] at henter; exact Option.noConfusion henter
  | cons f rest0 =>
      rw [should_enter_trade, hstr] at henter
      have hcore : should_enter_trade_core e f s = true := Option.some.inj henter
      rw [should_enter_trade_core] at hcore
      split_ifs at hcore with h1 h2 h3 h4 h5
      · -- same-class iron condor: window 30 to 45
        refine ⟨hpos, Nat.lt_of_not_le h2, eq_false_of_ne_true h3, hsym,
          fun first rest hfr => ?_⟩
        obtain ⟨rfl, rfl⟩ := List.cons.inj hfr
        exact ⟨fun _ => of_decide_eq_true hcore,
          fun hff _ => absurd h4 (by rw [hff]; exact Bool.noConfusion)⟩
      · -- straddle or strangle: window 15 to 30
        refine ⟨hpos, Nat.lt_of_not_le h2, eq_false_of_ne_true h3, hsym,
          fun first rest hfr => ?_⟩
        obtain ⟨rfl, rfl⟩ := List.cons.inj hfr
        exact ⟨fun hft => absurd hft h4, fun _ _ => of_decide_eq_true hcore⟩
      · -- all remaining variants: no window
        refine ⟨hpos, Nat.lt_of_not_le h2, eq_false_of_ne_true h3, hsym,
          fun first rest hfr => ?_⟩
        obtain ⟨rfl, rfl⟩ := List.cons.inj hfr
        exact ⟨fun hft => absurd hft h4, fun _ htc => absurd htc h5⟩

/-- Claim C6, counterexample to the claim as stated: the premium-paying
call spread `csEx` (net debit 4) is 100 days from expiration — outside both
the 30–45 and the 15–30 windows — yet the engine enters it, because a
strategy with neither a `net_credit` nor a `total_cost` attribute is subject
to no window at all. -/
theorem C6_entry_window_counterexample :
    entersPosition eC6 csEx = true ∧
      days_to_expiration csEx eC6.today = 100 ∧
      ¬ (30 ≤ days_to_expiration csEx eC6.today ∧
          days_to_expiration csEx eC6.today ≤ 45) ∧
      ¬ (15 ≤ days_to_expiration csEx eC6.today ∧
          days_to_expiration csEx eC6.today ≤ 30) := by
  have hml : |get_max_loss csEx| = 4 := by
    rw [show get_max_loss csEx = 4 by norm_num [get_max_loss, csEx]]
    rw [abs_of_pos (by norm_num : (0:ℚ) < 4)]
  have hsize : calculate_position_size eC6 csEx = 10 := by
    rw [calculate_position_size, hml]
    norm_num [eC6, cfgStd, pyInt]
  have hcore : should_enter_trade_core eC6 csEx csEx = true := by
    rw [should_enter_trade_core, hsize]
    norm_num [eC6, cfgStd, is_expired, days_to_expiration, csEx, sameClass,
      classTag, hasNetCredit, hasTotalCost]
  refine ⟨?_, by decide, by decide, by decide⟩
  rw [entersPosition, hsize]
  rw [show should_enter_trade eC6 csEx = some (should_enter_trade_core eC6 csEx csEx)
    from rfl, hcore]
  decide

/-- Claim C6, witnessed on the iron condor 40 days out registered first:
entry occurs and the amended conditions hold, in particular the position
size is positive. -/
theorem C6_entry_conditions_witness :
    0 < calculate_position_size eC6w icEx := by
  have hml : |get_max_loss icEx| = 5/2 := by
    rw [show get_max_loss icEx = 5/2 by norm_num [get_max_loss, icEx]]
    rw [abs_of_pos (by norm_num : (0:ℚ) < 5/2)]
  have hsize : calculate_position_size eC6w icEx = 10 := by
    rw [calculate_position_size, hml]
    norm_num [eC6w, cfgStd, pyInt]
  have hcore : should_enter_trade_core eC6w icEx icEx = true := by
    rw [should_enter_trade_core, hsize]
    norm_num [eC6w, cfgStd, is_expired, days_to_expiration, icEx, sameClass,
      classTag, hasNetCredit, hasTotalCost]
  refine (C6_entry_conditions eC6w icEx ?_).1
  rw [entersPosition, hsize]
  rw [show should_enter_trade eC6w icEx = some (should_enter_trade_core eC6w icEx icEx)
    from rfl, hcore]
  decide

/-- Claim C8 (amended): provided the configured initial capital is nonzero
(the total-return division raises otherwise), every simulation run — in
particular a zero-trade one — completes and returns a result whose winning
trades are exactly the trades with positive realized P&L, whose losing
count is the rest, whose metrics are all zero when no trade was recorded,
and whose win rate is `winning / total * 100` when trades exist. -/
theorem C8_run_metrics (e : Engine) (rand : ℕ → ℚ)
    (h : e.config.initial_capital ≠ 0) :
    ∃ r, run_simulation e rand = some r ∧
      r.total_trades = r.trades.length ∧
      r.winning_trades = (r.trades.filter (fun t => decide (0 < t.pnl))).length ∧
      r.losing_trades = r.total_trades - r.winning_trades ∧
      (r.total_trades = 0 →
        r.winning_trades = 0 ∧ r.losing_trades = 0 ∧ r.win_rate = 0) ∧
      (0 < r.total_trades →
        r.win_rate = (r.winning_trades : ℚ) / (r.total_trades : ℚ) * 100) := by
  simp only [run_simulation]
  rw [if_neg h]
  set l := (forceCloseAll (afterDays e rand e.config.simulation_days)).trades with hl
  refine ⟨_, rfl, rfl, rfl, rfl, fun h0 => ?_, fun h0 => ?_⟩
  · have h0' : l.length = 0 := h0
    have hle := List.length_filter_le (fun t => decide (0 < t.pnl)) l
    refine ⟨?_, ?_, ?_⟩
    · show (l.filter (fun t => decide (0 < t.pnl))).length = 0
      omega
    · show l.length - (l.filter (fun t => decide (0 < t.pnl))).length = 0
      omega
    · show (if 0 < l.length then ((l.filter (fun t => decide (0 < t.pnl))).length : ℚ)
          / (l.length : ℚ) * 100 else 0) = 0
      rw [if_neg (by omega)]
  · have h0' : 0 < l.length := h0
    show (if 0 < l.length then ((l.filter (fun t => decide (0 < t.pnl))).length : ℚ)
        / (l.length : ℚ) * 100 else 0) = _
    rw [if_pos h0']

/-- Claim C8, witnessed: a run with no strategies, one simulated day and
capital 10000 returns a result with the stated metric laws. -/
theorem C8_run_metrics_witness :
    ∃ r, run_simulation eC8w rand0 = some r ∧
      r.total_trades = r.trades.length ∧
      r.winning_trades = (r.trades.filter (fun t => decide (0 < t.pnl))).length ∧
      r.losing_trades = r.total_trades - r.winning_trades ∧
      (r.total_trades = 0 →
        r.winning_trades = 0 ∧ r.losing_trades = 0 ∧ r.win_rate = 0) ∧
      (0 < r.total_trades →
        r.win_rate = (r.winning_trades : ℚ) / (r.total_trades : ℚ) * 100) :=
  C8_run_metrics eC8w rand0 (by norm_num [eC8w])

/-- Claim C8, counterexample to the claim as stated: with zero initial
capital even a zero-trade run raises (`ZeroDivisionError` computing the
total return), modelled by the `none` result. -/
theorem C8_zero_capital_counterexample :
    run_simulation eC8zero rand0 = none := by
  simp only [run_simulation]
  rw [if_pos]
  rfl

/-! Evaluation of the two-day duplicate-identifier run, one phase at a
time. -/

theorem c10_sizeA : calculate_position_size eC10 csEx = 10 := by
  rw [calculate_position_size, show get_max_loss csEx = 4 by
    norm_num [get_max_loss, csEx], abs_of_pos (by norm_num : (0:ℚ) < 4)]
  norm_num [eC10, cfg2, pyInt]

theorem c10_entA : entersPosition eC10 csEx = true := by
  have hcore : should_enter_trade_core eC10 csEx csEx = true := by
    rw [should_enter_trade_core, c10_sizeA]
    norm_num [eC10, cfg2, is_expired, days_to_expiration, csEx, sameClass,
      classTag, hasNetCredit, hasTotalCost]
  rw [entersPosition, c10_sizeA,
    show should_enter_trade eC10 csEx = some (should_enter_trade_core eC10 csEx csEx)
      from rfl, hcore]
  decide

theorem c10_openA : openPosition eC10 csEx = eD0a := by
  rw [openPosition, c10_sizeA]
  rfl

theorem c10_sizeB : calculate_position_size eD0a csB = 10 := by
  rw [calculate_position_size, show get_max_loss csB = 4 by
    norm_num [get_max_loss, csB], abs_of_pos (by norm_num : (0:ℚ) < 4)]
  norm_num [eD0a, cfg2, pyInt]

theorem c10_entB : entersPosition eD0a csB = true := by
  have hcore : should_enter_trade_core eD0a csEx csB = true := by
    rw [should_enter_trade_core, c10_sizeB]
    norm_num [eD0a, cfg2, is_expired, days_to_expiration, csB, csEx, sameClass,
      classTag, hasNetCredit, hasTotalCost]
  rw [entersPosition, c10_sizeB,
    show should_enter_trade eD0a csB = some (should_enter_trade_core eD0a csEx csB)
      from rfl, hcore]
  decide

theorem c10_openB : openPosition eD0a csB = eDay0 := by
  rw [openPosition, c10_sizeB]
  rfl

theorem c10_day0 : dayStep randC10 eC10 0 = eDay0 := by
  rw [show dayStep randC10 eC10 0 = entry_phase eC10 from rfl, entry_phase,
    show eC10.strategies = [csEx, csB] from rfl]
  simp only [List.foldl_cons, List.foldl_nil]
  rw [if_pos c10_entA, c10_openA, if_pos c10_entB, c10_openB]

theorem c10_go :
    update_positions_go randC10 [pA0, pB0] [csEx, csB] 0 =
      ([pA1, pB1], [csExLow, csB], 2) := by
  have hsA : simulate_price_movement pA0.current_price 1 (randC10 0) = 1/100 := by
    rw [show pA0.current_price = 417/4 from rfl, show randC10 0 = -1 from rfl,
      simulate_price_movement]
    norm_num
  have hpA : calculate_payoff csEx (1/100) * (pA0.quantity : ℚ) = -40 := by
    rw [show pA0.quantity = (10:ℤ) from rfl]
    norm_num [calculate_payoff, csEx]
  have hsB : simulate_price_movement pB0.current_price 1 (randC10 1) = 417/4 := by
    rw [show pB0.current_price = 417/4 from rfl, show randC10 1 = 0 from rfl,
      simulate_price_movement]
    norm_num
  have hpB : calculate_payoff csB (417/4) * (pB0.quantity : ℚ) = 5/2 := by
    rw [show pB0.quantity = (10:ℤ) from rfl]
    norm_num [calculate_payoff, csB]
  simp only [update_positions_go,
    show findStrategy [csEx, csB] pA0.symbol = some csEx from rfl, hsA, hpA,
    show setStrategyPrice [csEx, csB] pA0.symbol (1/100) = [csExLow, csB] from rfl,
    zero_add,
    show findStrategy [csExLow, csB] pB0.symbol = some csB from rfl, hsB, hpB,
    show setStrategyPrice [csExLow, csB] pB0.symbol (417/4) = [csExLow, csB] from rfl]
  rfl

theorem c10_upd : update_positions eDay0c randC10 = eUpd := by
  rw [update_positions, show eDay0c.positions = [pA0, pB0] from rfl,
    show eDay0c.strategies = [csEx, csB] from rfl,
    show eDay0c.rand_index = 0 from rfl, c10_go]
  rfl

theorem c10_exitA : should_exit_trade eUpd pA1 csExLow = true := by
  rw [should_exit_trade]
  norm_num [is_expired, days_to_expiration, eUpd, pA1, csExLow, get_max_profit,
    get_max_loss, Option.elim]

theorem c10_exitB : should_exit_trade eUpd pB1 csB = false := by
  apply eq_false_of_ne_true
  rw [should_exit_trade]
  norm_num [is_expired, days_to_expiration, eUpd, pB1, csB, get_max_profit,
    get_max_loss, Option.elim]

theorem c10_close : (close_position eUpd pA1).2 = eClosed := by
  have hpay : calculate_payoff csExLow pA1.current_price * (pA1.quantity : ℚ) = -40 := by
    rw [show pA1.current_price = 1/100 from rfl, show pA1.quantity = (10:ℤ) from rfl]
    norm_num [calculate_payoff, csExLow]
  have hcash : eUpd.cash + (-40 : ℚ) = 9960 := by norm_num [eUpd]
  have her : eUpd.positions.erase pA1 = [pB1] := by
    rw [show eUpd.positions = [pA1, pB1] from rfl]
    exact List.erase_cons_head pA1 [pB1]
  rw [close_position, show findStrategy eUpd.strategies pA1.symbol = some csExLow
    from rfl]
  simp only [hpay, hcash, her]
  rfl

theorem c10_exit : exit_phase eUpd = eClosed := by
  rw [exit_phase, show eUpd.positions = [pA1, pB1] from rfl,
    show eUpd.strategies = [csExLow, csB] from rfl]
  simp only [List.filter_cons, List.filter_nil,
    show findStrategy [csExLow, csB] pA1.symbol = some csExLow from rfl,
    show findStrategy [csExLow, csB] pB1.symbol = some csB from rfl,
    c10_exitA, c10_exitB, if_true, if_false, List.foldl_cons, List.foldl_nil]
  exact c10_close

theorem c10_sizeA1 : calculate_position_size eClosed csExLow = 10 := by
  rw [calculate_position_size, show get_max_loss csExLow = 4 by
    norm_num [get_max_loss, csExLow], abs_of_pos (by norm_num : (0:ℚ) < 4)]
  norm_num [eClosed, cfg2, pyInt]

theorem c10_entA1 : entersPosition eClosed csExLow = true := by
  have hcore : should_enter_trade_core eClosed csExLow csExLow = true := by
    rw [should_enter_trade_core, c10_sizeA1]
    norm_num [eClosed, cfg2, is_expired, days_to_expiration, csExLow, sameClass,
      classTag, hasNetCredit, hasTotalCost]
  rw [entersPosition, c10_sizeA1,
    show should_enter_trade eClosed csExLow =
      some (should_enter_trade_core eClosed csExLow csExLow) from rfl, hcore]
  decide

theorem c10_openA1 : openPosition eClosed csExLow = eDay1 := by
  rw [openPosition, c10_sizeA1]
  rfl

theorem c10_sizeB1 : calculate_position_size eDay1 csB = 10 := by
  rw [calculate_position_size, show get_max_loss csB = 4 by
    norm_num [get_max_loss, csB], abs_of_pos (by norm_num : (0:ℚ) < 4)]
  norm_num [eDay1, cfg2, pyInt]

theorem c10_entB1 : entersPosition eDay1 csB = false := by
  have hcore : should_enter_trade_core eDay1 csExLow csB = false := by
    rw [should_enter_trade_core, c10_sizeB1]
    norm_num [eDay1, cfg2]
  rw [entersPosition, c10_sizeB1,
    show should_enter_trade eDay1 csB = some (should_enter_trade_core eDay1 csExLow csB)
      from rfl, hcore]
  decide

theorem c10_entry1 : entry_phase eClosed = eDay1 := by
  rw [entry_phase, show eClosed.strategies = [csExLow, csB] from rfl]
  simp only [List.foldl_cons, List.foldl_nil]
  rw [if_pos c10_entA1, c10_openA1,
    if_neg (by rw [c10_entB1]; exact Bool.false_ne_true)]

theorem c10_day1 : dayStep randC10 eDay0 1 = eDay1 := by
  rw [show dayStep randC10 eDay0 1 =
      entry_phase (exit_phase (update_positions eDay0c randC10)) from rfl,
    c10_upd, c10_exit, c10_entry1]

theorem c10_final : afterDays eC10 randC10 2 = eDay1 := by
  rw [afterDays, show List.range 2 = [0, 1] from rfl]
  simp only [List.foldl_cons, List.foldl_nil]
  rw [show resetEngine eC10 = eC10 from rfl, c10_day0, c10_day1]

/-- Claim C10: position identifiers are derived from the count of currently
open positions, so they are not unique across a run — in the concrete
two-day run `eC10`/`randC10`, the open-position list inside
`run_simulation`'s day loop ends up holding two distinct positions that both
carry identifier P0002 (the BBB position from day 0 and the AAA position
re-opened on day 1 after the first AAA position was closed). -/
theorem C10_duplicate_position_ids :
    ∃ p ∈ (afterDays eC10 randC10 2).positions,
      ∃ q ∈ (afterDays eC10 randC10 2).positions, p.id = q.id ∧ p ≠ q := by
  refine ⟨pB1, ?_, pA2, ?_, rfl, by decide⟩
  · rw [c10_final]
    exact List.mem_cons_self _ _
  · rw [c10_final]
    exact List.mem_cons_of_mem _ (List.mem_cons_self _ _)

end BotTrader
